import Mathlib

/-!
# Verification of the fabricant interactive workflow controller

Shallow embedding of the Bubble Tea workflow controller in `cmd` (the
`model.Update` state machine), the Azure DevOps client (`pkg/devops`) and
the Fabric client (`pkg/fabric`) of the fabricant repository, together
with theorems settling the specification's testable properties.

The presentation widgets (spinner, list, text inputs) are external
collaborators; only their observable state consumed by the controller is
modelled: the list's items and cursor, and each text input's current
string value.  Remote facade calls are modelled by an environment of
result oracles plus an explicit trace of the calls dispatched, in the
order the sequential Go code performs them.
-/

set_option maxRecDepth 4096

namespace Fabricant

/-- `GitProviderDetails` from `pkg/fabric` (the git-link descriptor). -/
structure GitProviderDetails where
  organizationName : String
  projectName : String
  repositoryName : String
  branchName : String
  directoryName : String
  gitProviderType : String
  deriving DecidableEq, Repr

/-- `Workspace` from `pkg/fabric`.  The `GitProviderDetails` pointer is an
`Option`. -/
structure Workspace where
  id : String
  displayName : String
  description : String
  type : String
  capacityId : String
  gitProviderDetails : Option GitProviderDetails
  deriving DecidableEq, Repr

/-- `CreateWorkspaceRequest` from `pkg/fabric`. -/
structure CreateWorkspaceRequest where
  displayName : String
  description : String
  capacityId : String
  deriving DecidableEq, Repr

/-- `ConnectToGitRequest` from `pkg/fabric` (pointer field as `Option`). -/
structure ConnectToGitRequest where
  gitProviderDetails : Option GitProviderDetails
  deriving DecidableEq, Repr

/-- `GitRefUpdate` from `pkg/devops`: the payload row sent to the
create-ref endpoint. -/
structure GitRefUpdate where
  name : String
  oldObjectId : String
  newObjectId : String
  deriving DecidableEq, Repr

/-- Embedding of Go `strings.HasPrefix s p` via the character lists. -/
def strHasPfx (s p : String) : Bool :=
  p.data.isPrefixOf s.data

/-- The fully-qualified ref name computed inside `Client.CreateBranch`
(`pkg/devops`): prepend `refs/heads/` unless already present. -/
def fullBranchName (newBranchName : String) : String :=
  if strHasPfx newBranchName "refs/heads/" then newBranchName
  else "refs/heads/" ++ newBranchName

/-- The `GitRefUpdate` list built by `Client.CreateBranch` (`pkg/devops`)
and posted to the refs endpoint. -/
def createBranchUpdates (newBranchName baseObjectId : String) : List GitRefUpdate :=
  [{ name := fullBranchName newBranchName,
     oldObjectId := "0000000000000000000000000000000000000000",
     newObjectId := baseObjectId }]

/-! ## The controller's state (`model` in the Go source) -/

/-- `sessionState` from the TUI source. -/
inductive SessionState where
  | stateInit
  | stateLoadingWorkspaces
  | stateSelectWorkspace
  | stateLoadingGit
  | stateEnterBranch
  | stateEnterWorkspace
  | stateExecuting
  | stateDone
  | stateError
  deriving DecidableEq, Repr

/-- The `model` struct.  Clients are abstracted to a readiness flag; the
list widget is abstracted to its items (already in `workspaces`) and its
cursor; each text input is abstracted to its string value. -/
structure Model where
  state : SessionState
  err : Option String
  successMsg : String
  executionInfos : List String
  clientsReady : Bool
  workspaces : List Workspace
  workspaceCursor : Nat
  branchInput : String
  wsInput : String
  selectedDevWorkspace : Option Workspace
  newBranchName : String
  newWorkspaceName : String
  deriving DecidableEq, Repr

/-- `initialModel()`. -/
def initialModel : Model :=
  { state := .stateInit
    err := none
    successMsg := ""
    executionInfos := []
    clientsReady := false
    workspaces := []
    workspaceCursor := 0
    branchInput := ""
    wsInput := ""
    selectedDevWorkspace := none
    newBranchName := ""
    newWorkspaceName := "" }

/-- Keys the controller distinguishes; `other` stands for any key the
widgets absorb without observable effect. -/
inductive Key where
  | ctrlC
  | enter
  | up
  | down
  | backspace
  | char (c : Char)
  | other
  deriving DecidableEq, Repr

/-- The message union consumed by `model.Update`. -/
inductive Msg where
  | key (k : Key)
  | windowSize
  | errMsg (e : String)
  | clientsReady
  | workspacesMsg (workspaces : List Workspace)
  | gitConnectionMsg (details : Option GitProviderDetails)
  | executionStep (info : String)
  | executionDone (msg : String)
  deriving DecidableEq, Repr

/-- The command returned by `Update`: remote dispatches are explicit;
`ui` stands for the widget-update / spinner-tick batch; `noCmd` is Go's
`nil` command. -/
inductive Cmd where
  | noCmd
  | quit
  | fetchWorkspaces
  | fetchGitConnection (id : String)
  | executeFlow
  | blink
  | ui
  deriving DecidableEq, Repr

/-- Text-input editing (the `textinput` widget): `char` appends subject to
the 100-character limit, `backspace` drops the last character. -/
def editInput (v : String) : Key → String
  | .char c => if v.length < 100 then v.push c else v
  | .backspace => ⟨v.data.dropLast⟩
  | _ => v

/-- The `stateSelectWorkspace` case of the state-specific switch: `enter`
selects the highlighted workspace (when one exists) and requests its git
connection; other messages drive the list widget. -/
def selectUpdate (m : Model) (msg : Msg) : Model × Cmd :=
  match msg with
  | .key .enter =>
    match m.workspaces.get? m.workspaceCursor with
    | some w =>
      ({ m with
          selectedDevWorkspace := some w
          state := .stateLoadingGit }, .fetchGitConnection w.id)
    | none => (m, .ui)
  | .key .up => ({ m with workspaceCursor := m.workspaceCursor - 1 }, .ui)
  | .key .down =>
    ({ m with
        workspaceCursor := Nat.min (m.workspaceCursor + 1) (m.workspaces.length - 1) }, .ui)
  | _ => (m, .ui)

/-- The `stateEnterBranch` case: `enter` records the typed branch name
and, when non-empty, seeds the default workspace name and advances; other
keys edit the branch input. -/
def branchUpdate (m : Model) (msg : Msg) : Model × Cmd :=
  match msg with
  | .key .enter =>
    let m1 := { m with newBranchName := m.branchInput }
    if m1.newBranchName ≠ "" then
      ({ m1 with
          state := .stateEnterWorkspace
          wsInput := "Feature - " ++ m1.newBranchName }, .blink)
    else (m1, .ui)
  | .key k => ({ m with branchInput := editInput m.branchInput k }, .ui)
  | _ => (m, .ui)

/-- The `stateEnterWorkspace` case: `enter` records the typed workspace
name and, when non-empty, dispatches the execution sequence; other keys
edit the workspace-name input. -/
def wsUpdate (m : Model) (msg : Msg) : Model × Cmd :=
  match msg with
  | .key .enter =>
    let m1 := { m with newWorkspaceName := m.wsInput }
    if m1.newWorkspaceName ≠ "" then
      ({ m1 with state := .stateExecuting }, .executeFlow)
    else (m1, .ui)
  | .key k => ({ m with wsInput := editInput m.wsInput k }, .ui)
  | _ => (m, .ui)

/-- The state-specific half of `model.Update` (the `switch m.state` block
reached when the message's type case did not return early).  The spinner
states and the terminal states only tick their presentation widgets,
leaving the model's observable fields unchanged. -/
def stateUpdate (m : Model) (msg : Msg) : Model × Cmd :=
  match m.state with
  | .stateSelectWorkspace => selectUpdate m msg
  | .stateEnterBranch => branchUpdate m msg
  | .stateEnterWorkspace => wsUpdate m msg
  | _ => (m, .ui)

/-- `model.Update`.  Returns `none` exactly where the Go code would
dereference a nil pointer (storing the git link when no workspace is
selected). -/
def update (m : Model) (msg : Msg) : Option (Model × Cmd) :=
  match msg with
  | .key .ctrlC => some (m, .quit)
  | .errMsg e => some ({ m with err := some e, state := .stateError }, .noCmd)
  | .clientsReady =>
    some ({ m with clientsReady := true, state := .stateLoadingWorkspaces },
      .fetchWorkspaces)
  | .workspacesMsg ws =>
    some ({ m with workspaces := ws, state := .stateSelectWorkspace }, .noCmd)
  | .gitConnectionMsg details =>
    match details with
    | none =>
      some ({ m with
        err := some "selected workspace does not have git integration (or unsupported provider)",
        state := .stateError }, .noCmd)
    | some g =>
      if g.gitProviderType = "" then
        some ({ m with
          err := some "selected workspace does not have git integration (or unsupported provider)",
          state := .stateError }, .noCmd)
      else
        match m.selectedDevWorkspace with
        | none => none
        | some w =>
          some ({ m with
            selectedDevWorkspace := some { w with gitProviderDetails := some g },
            state := .stateEnterBranch }, .blink)
  | .executionStep info =>
    some ({ m with executionInfos := m.executionInfos ++ [info] }, .noCmd)
  | .executionDone s =>
    some ({ m with successMsg := s, state := .stateDone }, .quit)
  | .key _ => some (stateUpdate m msg)
  | .windowSize => some (stateUpdate m msg)

/-! ## The execution sequence (`model.executeFlowCmd`) -/

/-- Result oracles for the five remote facade calls dispatched by
`executeFlowCmd`. -/
structure Env where
  getBranchObjectId : String → String → String → String → Except String String
  createBranch : String → String → String → String → String → Except String Unit
  createWorkspace : CreateWorkspaceRequest → Except String Workspace
  connectWorkspaceToGit : String → ConnectToGitRequest → Except String Unit
  updateWorkspaceFromGit : String → Except String Unit

/-- A dispatched facade call, recorded with its arguments. -/
inductive FacadeCall where
  | getBranchObjectId (org project repo branch : String)
  | createBranch (org project repo newBranch baseId : String)
  | createWorkspace (req : CreateWorkspaceRequest)
  | connectWorkspaceToGit (wsId : String) (req : ConnectToGitRequest)
  | updateWorkspaceFromGit (wsId : String)
  deriving DecidableEq, Repr

/-- The create-workspace request literal built in `executeFlowCmd`. -/
def createWsReq (m : Model) (sw : Workspace) : CreateWorkspaceRequest :=
  { displayName := m.newWorkspaceName
    description := "Feature workspace for " ++ m.newBranchName ++
      " (Parent: " ++ sw.displayName ++ ")"
    capacityId := sw.capacityId }

/-- `model.executeFlowCmd`: the five-step remote orchestration.  Yields
the message it returns to the controller together with the trace of
facade calls dispatched, or `none` where the Go code would dereference a
nil selected workspace or nil git details. -/
def executeFlowCmd (m : Model) (env : Env) : Option (Msg × List FacadeCall) :=
  match m.selectedDevWorkspace with
  | none => none
  | some sw =>
    match sw.gitProviderDetails with
    | none => none
    | some gitInfo =>
      let c1 := FacadeCall.getBranchObjectId gitInfo.organizationName
        gitInfo.projectName gitInfo.repositoryName gitInfo.branchName
      match env.getBranchObjectId gitInfo.organizationName gitInfo.projectName
          gitInfo.repositoryName gitInfo.branchName with
      | .error e => some (.errMsg ("getting dev branch commit: " ++ e), [c1])
      | .ok baseCommitId =>
        let c2 := FacadeCall.createBranch gitInfo.organizationName
          gitInfo.projectName gitInfo.repositoryName m.newBranchName baseCommitId
        match env.createBranch gitInfo.organizationName gitInfo.projectName
            gitInfo.repositoryName m.newBranchName baseCommitId with
        | .error e => some (.errMsg ("creating feature branch: " ++ e), [c1, c2])
        | .ok _ =>
          let req := createWsReq m sw
          match env.createWorkspace req with
          | .error e =>
            some (.errMsg ("creating workspace: " ++ e),
              [c1, c2, .createWorkspace req])
          | .ok newWs =>
            let newGitInfo := { gitInfo with branchName := m.newBranchName }
            let creq : ConnectToGitRequest := ⟨some newGitInfo⟩
            match env.connectWorkspaceToGit newWs.id creq with
            | .error e =>
              some (.errMsg ("connecting git: " ++ e),
                [c1, c2, .createWorkspace req, .connectWorkspaceToGit newWs.id creq])
            | .ok _ =>
              match env.updateWorkspaceFromGit newWs.id with
              | .error e =>
                some (.errMsg ("updating from git: " ++ e),
                  [c1, c2, .createWorkspace req, .connectWorkspaceToGit newWs.id creq,
                   .updateWorkspaceFromGit newWs.id])
              | .ok _ =>
                some (.executionDone "Workspace and Branch created and synced successfully!",
                  [c1, c2, .createWorkspace req, .connectWorkspaceToGit newWs.id creq,
                   .updateWorkspaceFromGit newWs.id])

/-! ## Delivery discipline and reachability -/

/-- A message is admissible when it is a user input or the response to
the single remote call outstanding in the current phase (the program
dispatches at most one call at a time and each result message is only
ever produced by the call the named phase awaits). -/
def admissible (m : Model) : Msg → Bool
  | .clientsReady => m.state = .stateInit
  | .workspacesMsg _ => m.state = .stateLoadingWorkspaces
  | .gitConnectionMsg _ => m.state = .stateLoadingGit
  | .executionStep _ => m.state = .stateExecuting
  | .executionDone _ => m.state = .stateExecuting
  | .errMsg _ =>
    m.state = .stateInit || m.state = .stateLoadingWorkspaces ||
    m.state = .stateLoadingGit || m.state = .stateExecuting
  | _ => true

/-- Models reachable from the initial model along admissible messages. -/
inductive Reachable : Model → Prop where
  | init : Reachable initialModel
  | step {m : Model} {msg : Msg} {p : Model × Cmd} :
      Reachable m → admissible m msg = true → update m msg = some p →
      Reachable p.1

/-- Run a list of messages through the controller, checking admissibility
at every step. -/
def runTrace (m : Model) : List Msg → Option Model
  | [] => some m
  | msg :: rest =>
    if admissible m msg then
      match update m msg with
      | some p => runTrace p.1 rest
      | none => none
    else none

/-- The successor of each phase in the specified linear order. -/
def nextPhase : SessionState → SessionState
  | .stateInit => .stateLoadingWorkspaces
  | .stateLoadingWorkspaces => .stateSelectWorkspace
  | .stateSelectWorkspace => .stateLoadingGit
  | .stateLoadingGit => .stateEnterBranch
  | .stateEnterBranch => .stateEnterWorkspace
  | .stateEnterWorkspace => .stateExecuting
  | .stateExecuting => .stateDone
  | .stateDone => .stateDone
  | .stateError => .stateError

/-! ## Concrete end-to-end scenario data (spec §8) -/

/-- The source ("parent") dev workspace of the end-to-end scenario. -/
def devWs : Workspace :=
  { id := "ws-1", displayName := "Dev Workspace", description := ""
    type := "Workspace", capacityId := "cap-1", gitProviderDetails := none }

/-- The source workspace's git link of the end-to-end scenario. -/
def srcLink : GitProviderDetails :=
  { organizationName := "A", projectName := "P", repositoryName := "R"
    branchName := "main", directoryName := "/", gitProviderType := "AzureDevOps" }

/-- The scenario's user-input / result message sequence: clients ready,
workspace list loaded, selection confirmed, git link loaded, branch name
`feature/login` typed and confirmed, default workspace name accepted. -/
def scenarioMsgs : List Msg :=
  [.clientsReady, .workspacesMsg [devWs], .key .enter,
   .gitConnectionMsg (some srcLink)] ++
  ("feature/login".data.map fun c => Msg.key (.char c)) ++
  [.key .enter, .key .enter]

/-- The selected source workspace once its git link has been stored. -/
def swExec : Workspace :=
  { devWs with gitProviderDetails := some srcLink }

/-- The controller state the scenario reaches when the execution sequence
is dispatched. -/
def mExec : Model :=
  { state := .stateExecuting
    err := none
    successMsg := ""
    executionInfos := []
    clientsReady := true
    workspaces := [devWs]
    workspaceCursor := 0
    branchInput := "feature/login"
    wsInput := "Feature - feature/login"
    selectedDevWorkspace := some swExec
    newBranchName := "feature/login"
    newWorkspaceName := "Feature - feature/login" }

/-- An environment in which all five facade calls succeed. -/
def happyEnv : Env :=
  { getBranchObjectId := fun _ _ _ _ => .ok "base123"
    createBranch := fun _ _ _ _ _ => .ok ()
    createWorkspace := fun req =>
      .ok { id := "new-ws-id", displayName := req.displayName
            description := req.description, type := "Workspace"
            capacityId := req.capacityId, gitProviderDetails := none }
    connectWorkspaceToGit := fun _ _ => .ok ()
    updateWorkspaceFromGit := fun _ => .ok () }

/-- The full scenario run: drive the UI messages, dispatch the execution
sequence, and deliver its resulting message; yields the final controller
state and the facade-call trace. -/
def c2Run (env : Env) : Option (Model × List FacadeCall) :=
  match runTrace initialModel scenarioMsgs with
  | none => none
  | some m =>
    match executeFlowCmd m env with
    | none => none
    | some (msg, calls) =>
      match update m msg with
      | none => none
      | some p => some (p.1, calls)

/-! ## Helper lemmas -/

lemma isPrefixOf_append_self (p t : List Char) : p.isPrefixOf (p ++ t) = true := by
  induction p with
  | nil => simp
  | cons c cs ih => simp [List.isPrefixOf_cons₂, ih]

lemma str_data_append (a b : String) : (a ++ b).data = a.data ++ b.data := rfl

lemma strHasPfx_append (p n : String) : strHasPfx (p ++ n) p = true := by
  unfold strHasPfx
  rw [str_data_append]
  exact isPrefixOf_append_self _ _

/-- Commands that dispatch a remote facade operation. -/
def isRemoteCmd : Cmd → Bool
  | .fetchWorkspaces => true
  | .fetchGitConnection _ => true
  | .executeFlow => true
  | _ => false

/-! ## Claims -/

/-- Claim C7: the fully-qualified ref name passed to the create-branch
facade call is the same whether the branch name is supplied with the
`refs/heads/` prefix or without it; a name lacking the prefix has it
added, a name carrying it is passed unchanged, and the normalization is
idempotent. -/
theorem c7_ref_normalization (n base : String) :
    fullBranchName (fullBranchName n) = fullBranchName n ∧
    (strHasPfx n "refs/heads/" = true → fullBranchName n = n) ∧
    (strHasPfx n "refs/heads/" = false →
      fullBranchName n = "refs/heads/" ++ n ∧
      createBranchUpdates ("refs/heads/" ++ n) base = createBranchUpdates n base) := by
  refine ⟨?_, ?_, ?_⟩
  · by_cases h : strHasPfx n "refs/heads/" = true
    · simp [fullBranchName, h]
    · simp only [Bool.not_eq_true] at h
      simp [fullBranchName, h, strHasPfx_append]
  · intro h
    simp [fullBranchName, h]
  · intro h
    refine ⟨by simp [fullBranchName, h], ?_⟩
    simp [createBranchUpdates, fullBranchName, h, strHasPfx_append]

/-- Witness for C7 at branch name `feature/x`. -/
theorem c7_ref_normalization_witness :
    fullBranchName "feature/x" = "refs/heads/feature/x" ∧
    createBranchUpdates "refs/heads/feature/x" "base" =
      createBranchUpdates "feature/x" "base" := by
  have h := (c7_ref_normalization "feature/x" "base").2.2 (by decide)
  exact ⟨h.1, h.2⟩

/-- Claim C8: confirming a non-empty branch name in phase
`EnterBranchName` pre-populates the workspace-name input with exactly
`"Feature - " ++ branchName` and moves the phase to `EnterWorkspaceName`. -/
theorem c8_default_workspace_name (m : Model)
    (hs : m.state = .stateEnterBranch) (hv : m.branchInput ≠ "") :
    update m (.key .enter) =
      some ({ m with
          newBranchName := m.branchInput
          state := .stateEnterWorkspace
          wsInput := "Feature - " ++ m.branchInput }, .blink) := by
  simp [update, stateUpdate, branchUpdate, hs, hv]

/-- The controller in `EnterBranchName` with `feature/x` typed. -/
def mEnterBranch : Model :=
  { initialModel with state := .stateEnterBranch, branchInput := "feature/x" }

/-- Witness for C8 at branch name `feature/x`: the seeded workspace name
is exactly `Feature - feature/x`. -/
theorem c8_default_workspace_name_witness :
    update mEnterBranch (.key .enter) =
      some ({ mEnterBranch with
          newBranchName := "feature/x"
          state := .stateEnterWorkspace
          wsInput := "Feature - feature/x" }, .blink) :=
  (c8_default_workspace_name mEnterBranch rfl (by decide)).trans (by decide)

/-- Claim C9: confirming an empty text in `EnterBranchName` or
`EnterWorkspaceName` leaves the phase unchanged, does not enter `Error`
(the error field is untouched), and dispatches no remote operation. -/
theorem c9_empty_name_noop (m : Model)
    (h : (m.state = .stateEnterBranch ∧ m.branchInput = "") ∨
         (m.state = .stateEnterWorkspace ∧ m.wsInput = "")) :
    ((update m (.key .enter)).map fun p => (p.1.state, p.1.err, isRemoteCmd p.2)) =
      some (m.state, m.err, false) := by
  rcases h with ⟨hs, hv⟩ | ⟨hs, hv⟩ <;>
    simp [update, stateUpdate, branchUpdate, wsUpdate, hs, hv, isRemoteCmd]

/-- Witness for C9: empty confirmation in `EnterBranchName` on a concrete
model. -/
theorem c9_empty_name_noop_witness :
    ((update { initialModel with state := .stateEnterBranch } (.key .enter)).map
        fun p => (p.1.state, p.1.err, isRemoteCmd p.2)) =
      some (.stateEnterBranch, none, false) :=
  (c9_empty_name_noop { initialModel with state := .stateEnterBranch }
    (Or.inl ⟨rfl, rfl⟩)).trans (by decide)

/-- Claim C4: a git-link result whose details are missing or whose
provider type is empty, delivered in phase `LoadingGitLink`, moves the
controller to `Error` with the missing/unsupported-git-integration
message, never to `EnterBranchName`, and does not crash (the update is
defined). -/
theorem c4_missing_git_integration (m : Model) (d : Option GitProviderDetails)
    (_hs : m.state = .stateLoadingGit)
    (hd : d = none ∨ ∃ g, d = some g ∧ g.gitProviderType = "") :
    update m (.gitConnectionMsg d) =
      some ({ m with
        err := some "selected workspace does not have git integration (or unsupported provider)",
        state := .stateError }, .noCmd) ∧
    ∀ p, update m (.gitConnectionMsg d) = some p → p.1.state ≠ .stateEnterBranch := by
  have h1 : update m (.gitConnectionMsg d) =
      some ({ m with
        err := some "selected workspace does not have git integration (or unsupported provider)",
        state := .stateError }, .noCmd) := by
    rcases hd with rfl | ⟨g, rfl, hg⟩
    · simp [update]
    · simp [update, hg]
  refine ⟨h1, ?_⟩
  intro p hp
  rw [h1] at hp
  cases hp
  simp

/-- Witness for C4: an `AzureDevOps`-typed link with empty provider type
delivered in `LoadingGitLink`. -/
theorem c4_missing_git_integration_witness :
    update { initialModel with state := .stateLoadingGit }
        (.gitConnectionMsg (some { srcLink with gitProviderType := "" })) =
      some ({ initialModel with
        err := some "selected workspace does not have git integration (or unsupported provider)",
        state := .stateError }, .noCmd) :=
  ((c4_missing_git_integration { initialModel with state := .stateLoadingGit }
      (some { srcLink with gitProviderType := "" }) rfl
      (Or.inr ⟨_, rfl, rfl⟩)).1).trans (by decide)

/-- The state-specific switch either keeps the phase or advances it to
its immediate successor. -/
lemma stateUpdate_phase (m : Model) (msg : Msg) :
    (stateUpdate m msg).1.state = m.state ∨
    (stateUpdate m msg).1.state = nextPhase m.state := by
  cases hs : m.state <;>
    simp only [stateUpdate, hs, nextPhase]
  case stateSelectWorkspace =>
    cases msg with
    | key k =>
      cases k <;> simp [selectUpdate, hs]
      cases hw : m.workspaces[m.workspaceCursor]? <;> simp [hw, hs]
    | _ => simp [selectUpdate, hs]
  case stateEnterBranch =>
    cases msg with
    | key k =>
      cases k <;> simp [branchUpdate, hs]
      by_cases hv : m.branchInput = "" <;> simp [hv, hs]
    | _ => simp [branchUpdate, hs]
  case stateEnterWorkspace =>
    cases msg with
    | key k =>
      cases k <;> simp [wsUpdate, hs]
      by_cases hv : m.wsInput = "" <;> simp [hv, hs]
    | _ => simp [wsUpdate, hs]
  all_goals simp [hs]

/-- Claim C1: along any admissible delivery (user inputs plus results of
the single outstanding remote call), every `update` step keeps the phase,
advances it to the immediate successor of the specified linear order
`Init, LoadingWorkspaces, SelectWorkspace, LoadingGitLink,
EnterBranchName, EnterWorkspaceName, Executing, Done`, or enters `Error`:
no phase is skipped and no backward transition occurs. -/
theorem c1_phase_monotone (m : Model) (msg : Msg) (p : Model × Cmd)
    (hA : admissible m msg = true) (hU : update m msg = some p) :
    p.1.state = m.state ∨ p.1.state = nextPhase m.state ∨
    p.1.state = .stateError := by
  cases msg with
  | key k =>
    cases k with
    | ctrlC =>
      simp [update] at hU
      simp [← hU]
    | enter =>
      simp only [update] at hU
      cases hU
      rcases stateUpdate_phase m (.key .enter) with h | h
      · exact Or.inl h
      · exact Or.inr (Or.inl h)
    | up =>
      simp only [update] at hU
      cases hU
      rcases stateUpdate_phase m (.key .up) with h | h
      · exact Or.inl h
      · exact Or.inr (Or.inl h)
    | down =>
      simp only [update] at hU
      cases hU
      rcases stateUpdate_phase m (.key .down) with h | h
      · exact Or.inl h
      · exact Or.inr (Or.inl h)
    | backspace =>
      simp only [update] at hU
      cases hU
      rcases stateUpdate_phase m (.key .backspace) with h | h
      · exact Or.inl h
      · exact Or.inr (Or.inl h)
    | char c =>
      simp only [update] at hU
      cases hU
      rcases stateUpdate_phase m (.key (.char c)) with h | h
      · exact Or.inl h
      · exact Or.inr (Or.inl h)
    | other =>
      simp only [update] at hU
      cases hU
      rcases stateUpdate_phase m (.key .other) with h | h
      · exact Or.inl h
      · exact Or.inr (Or.inl h)
  | windowSize =>
    simp only [update] at hU
    cases hU
    rcases stateUpdate_phase m .windowSize with h | h
    · exact Or.inl h
    · exact Or.inr (Or.inl h)
  | errMsg e =>
    simp [update] at hU
    simp [← hU]
  | clientsReady =>
    simp [admissible] at hA
    simp [update] at hU
    simp [← hU, hA, nextPhase]
  | workspacesMsg ws =>
    simp [admissible] at hA
    simp [update] at hU
    simp [← hU, hA, nextPhase]
  | gitConnectionMsg d =>
    simp [admissible] at hA
    cases d with
    | none =>
      simp [update] at hU
      simp [← hU]
    | some g =>
      by_cases hg : g.gitProviderType = ""
      · simp [update, hg] at hU
        simp [← hU]
      · cases hw : m.selectedDevWorkspace with
        | none => simp [update, hg, hw] at hU
        | some w =>
          simp [update, hg, hw] at hU
          simp [← hU, hA, nextPhase]
  | executionStep info =>
    simp [update] at hU
    simp [← hU]
  | executionDone s =>
    simp [admissible] at hA
    simp [update] at hU
    simp [← hU, hA, nextPhase]

/-- Witness for C1: the clients-ready result delivered in `Init` moves
the phase to exactly its successor `LoadingWorkspaces`. -/
theorem c1_phase_monotone_witness :
    ({ initialModel with
        clientsReady := true
        state := .stateLoadingWorkspaces } : Model).state = initialModel.state ∨
    ({ initialModel with
        clientsReady := true
        state := .stateLoadingWorkspaces } : Model).state = nextPhase initialModel.state ∨
    ({ initialModel with
        clientsReady := true
        state := .stateLoadingWorkspaces } : Model).state = .stateError :=
  c1_phase_monotone initialModel .clientsReady
    ({ initialModel with
        clientsReady := true
        state := .stateLoadingWorkspaces }, .fetchWorkspaces)
    (by decide) (by decide)

/-- Claim C2 (counterexample): in the specified end-to-end success
scenario the final phase is `Done`, but the session's progress-log list
contains zero `ProgressEntry` records rather than five — the execution
command performs all five steps as one unit and never appends a per-step
entry. -/
theorem c2_progress_log_counterexample :
    (c2Run happyEnv).map
        (fun p => (p.1.state, p.1.executionInfos.length,
          decide (p.1.executionInfos.length = 5))) =
      some (.stateDone, 0, false) := by decide

/-- Claim C2 (amended): in the end-to-end success scenario — git link
`{org A, project P, repo R, branch main, provider AzureDevOps}`, branch
name `feature/login`, default workspace name accepted, all five facade
calls succeeding — the final phase is `Done` with the non-empty success
summary, the five facade calls are dispatched in order, and the
progress-log list is empty (no `ProgressEntry` is ever appended). -/
theorem c2_end_to_end :
    c2Run happyEnv =
      some ({ mExec with
          successMsg := "Workspace and Branch created and synced successfully!"
          state := .stateDone },
        [.getBranchObjectId "A" "P" "R" "main",
         .createBranch "A" "P" "R" "feature/login" "base123",
         .createWorkspace
           { displayName := "Feature - feature/login"
             description := "Feature workspace for feature/login (Parent: Dev Workspace)"
             capacityId := "cap-1" },
         .connectWorkspaceToGit "new-ws-id"
           ⟨some { organizationName := "A"
                   projectName := "P"
                   repositoryName := "R"
                   branchName := "feature/login"
                   directoryName := "/"
                   gitProviderType := "AzureDevOps" }⟩,
         .updateWorkspaceFromGit "new-ws-id"]) ∧
    ({ mExec with
        successMsg := "Workspace and Branch created and synced successfully!"
        state := .stateDone } : Model).successMsg ≠ "" ∧
    ({ mExec with
        successMsg := "Workspace and Branch created and synced successfully!"
        state := .stateDone } : Model).executionInfos = [] := by
  refine ⟨by decide, by decide, by decide⟩

/-- The create-workspace request dispatched during the end-to-end
scenario run. -/
def c6Req : Option CreateWorkspaceRequest :=
  match executeFlowCmd mExec happyEnv with
  | some (_, calls) =>
    calls.findSome? fun c =>
      match c with
      | .createWorkspace req => some req
      | _ => none
  | none => none

/-- Claim C6 (counterexample): in the concrete scenario whose source
branch is `main`, the create-workspace request generated by the code
carries a description that nowhere mentions the source branch `main` —
it references the new branch name instead — so the claim's "description
references the source branch" fails. -/
theorem c6_description_counterexample :
    c6Req = some
      { displayName := "Feature - feature/login"
        description := "Feature workspace for feature/login (Parent: Dev Workspace)"
        capacityId := "cap-1" } ∧
    (c6Req.map fun r => decide ("main".data <:+: r.description.data)) = some false ∧
    ((mExec.selectedDevWorkspace.bind Workspace.gitProviderDetails).map
      GitProviderDetails.branchName) = some "main" := by
  refine ⟨by decide, by decide, by decide⟩

/-- Facade calls belonging to steps 4 (link to git) and 5 (sync from
git). -/
def isStep45 : FacadeCall → Bool
  | .connectWorkspaceToGit _ _ => true
  | .updateWorkspaceFromGit _ => true
  | _ => false

/-- Claim C3: when step 3 (create workspace) fails, steps 4 and 5 are
never dispatched, the failing-step label is `creating workspace` wrapping
the facade error text — and not the label of steps 1, 2, 4 or 5 — and
delivering the resulting error message puts the session in `Error`. -/
theorem c3_step3_failure (m : Model) (env : Env) (sw : Workspace)
    (g : GitProviderDetails) (cid e : String)
    (h1 : m.selectedDevWorkspace = some sw)
    (h2 : sw.gitProviderDetails = some g)
    (h3 : env.getBranchObjectId g.organizationName g.projectName
      g.repositoryName g.branchName = .ok cid)
    (h4 : env.createBranch g.organizationName g.projectName
      g.repositoryName m.newBranchName cid = .ok ())
    (h5 : env.createWorkspace (createWsReq m sw) = .error e) :
    executeFlowCmd m env =
      some (.errMsg ("creating workspace: " ++ e),
        [.getBranchObjectId g.organizationName g.projectName
           g.repositoryName g.branchName,
         .createBranch g.organizationName g.projectName
           g.repositoryName m.newBranchName cid,
         .createWorkspace (createWsReq m sw)]) ∧
    ([FacadeCall.getBranchObjectId g.organizationName g.projectName
        g.repositoryName g.branchName,
      FacadeCall.createBranch g.organizationName g.projectName
        g.repositoryName m.newBranchName cid,
      FacadeCall.createWorkspace (createWsReq m sw)].all
        fun c => !isStep45 c) = true ∧
    strHasPfx ("creating workspace: " ++ e) "creating workspace: " = true ∧
    strHasPfx ("creating workspace: " ++ e) "getting dev branch commit" = false ∧
    strHasPfx ("creating workspace: " ++ e) "creating feature branch" = false ∧
    strHasPfx ("creating workspace: " ++ e) "connecting git" = false ∧
    strHasPfx ("creating workspace: " ++ e) "updating from git" = false ∧
    update m (.errMsg ("creating workspace: " ++ e)) =
      some ({ m with
        err := some ("creating workspace: " ++ e),
        state := .stateError }, .noCmd) := by
  refine ⟨?_, by simp [isStep45], strHasPfx_append _ _, ?_, ?_, ?_, ?_, by simp [update]⟩
  · simp [executeFlowCmd, h1, h2, h3, h4, h5]
  all_goals rfl

/-- An environment whose create-workspace call fails. -/
def failWsEnv : Env :=
  { happyEnv with createWorkspace := fun _ => .error "boom" }

/-- Witness for C3 on the concrete scenario state with a failing
create-workspace call. -/
theorem c3_step3_failure_witness :
    executeFlowCmd mExec failWsEnv =
      some (.errMsg "creating workspace: boom",
        [.getBranchObjectId "A" "P" "R" "main",
         .createBranch "A" "P" "R" "feature/login" "base123",
         .createWorkspace
           { displayName := "Feature - feature/login"
             description := "Feature workspace for feature/login (Parent: Dev Workspace)"
             capacityId := "cap-1" }]) :=
  ((c3_step3_failure mExec failWsEnv swExec srcLink "base123" "boom"
    rfl rfl rfl rfl rfl).1).trans (by decide)

/-- The message/trace pair of the all-success execution run from the
scenario state. -/
def happyRun : Msg × List FacadeCall :=
  (.executionDone "Workspace and Branch created and synced successfully!",
   [.getBranchObjectId "A" "P" "R" "main",
    .createBranch "A" "P" "R" "feature/login" "base123",
    .createWorkspace
      { displayName := "Feature - feature/login"
        description := "Feature workspace for feature/login (Parent: Dev Workspace)"
        capacityId := "cap-1" },
    .connectWorkspaceToGit "new-ws-id"
      ⟨some { srcLink with branchName := "feature/login" }⟩,
    .updateWorkspaceFromGit "new-ws-id"])

/-- Claim C5: every link-workspace-to-git call dispatched by the
execution sequence carries the source git link with only the branch
replaced by the user-chosen new branch name: organization, project and
repository are those of the source link, and whenever the new name
differs from the source branch the linked branch is not the source
branch. -/
theorem c5_new_link_branch (m : Model) (env : Env) (sw : Workspace)
    (g : GitProviderDetails)
    (h1 : m.selectedDevWorkspace = some sw)
    (h2 : sw.gitProviderDetails = some g)
    (p : Msg × List FacadeCall) (hp : executeFlowCmd m env = some p)
    (wsId : String) (req : ConnectToGitRequest)
    (hmem : FacadeCall.connectWorkspaceToGit wsId req ∈ p.2) :
    req = ⟨some { g with branchName := m.newBranchName }⟩ ∧
    (m.newBranchName ≠ g.branchName → req.gitProviderDetails ≠ some g) := by
  simp only [executeFlowCmd, h1, h2] at hp
  split at hp
  · cases hp; simp at hmem
  · split at hp
    · cases hp; simp at hmem
    · split at hp
      · cases hp; simp at hmem
      · split at hp
        · cases hp
          simp at hmem
          obtain ⟨hw, hr⟩ := hmem
          subst hr
          refine ⟨rfl, ?_⟩
          intro hne hEq
          apply hne
          have h' := Option.some.inj hEq
          simpa using congrArg GitProviderDetails.branchName h'
        · split at hp <;> cases hp <;> simp at hmem <;>
            obtain ⟨hw, hr⟩ := hmem <;> subst hr <;>
            refine ⟨rfl, ?_⟩ <;> intro hne hEq <;> apply hne <;>
            have h' := Option.some.inj hEq <;>
            simpa using congrArg GitProviderDetails.branchName h'

/-- Witness for C5 on the all-success scenario run. -/
theorem c5_new_link_branch_witness :
    (⟨some { srcLink with branchName := "feature/login" }⟩ : ConnectToGitRequest) =
      ⟨some { srcLink with branchName := mExec.newBranchName }⟩ ∧
    (mExec.newBranchName ≠ srcLink.branchName →
      (⟨some { srcLink with branchName := "feature/login" }⟩ :
        ConnectToGitRequest).gitProviderDetails ≠ some srcLink) :=
  c5_new_link_branch mExec happyEnv swExec srcLink rfl rfl happyRun
    (by decide) "new-ws-id" ⟨some { srcLink with branchName := "feature/login" }⟩
    (by decide)

/-- Claim C6 (amended): every create-workspace request dispatched by the
execution sequence carries the user-chosen display name, the same
capacity identifier as the source workspace, and a generated description
that references the user-chosen new branch name and the parent
workspace's display name. -/
theorem c6_create_request (m : Model) (env : Env) (sw : Workspace)
    (g : GitProviderDetails)
    (h1 : m.selectedDevWorkspace = some sw)
    (h2 : sw.gitProviderDetails = some g)
    (p : Msg × List FacadeCall) (hp : executeFlowCmd m env = some p)
    (req : CreateWorkspaceRequest) (hmem : FacadeCall.createWorkspace req ∈ p.2) :
    req = createWsReq m sw ∧
    req.displayName = m.newWorkspaceName ∧
    req.capacityId = sw.capacityId ∧
    m.newBranchName.data <:+: req.description.data ∧
    sw.displayName.data <:+: req.description.data := by
  have hreq : req = createWsReq m sw := by
    simp only [executeFlowCmd, h1, h2] at hp
    split at hp
    · cases hp; simp at hmem
    · split at hp
      · cases hp; simp at hmem
      · split at hp
        · cases hp; simp at hmem; exact hmem
        · split at hp
          · cases hp; simp at hmem; exact hmem
          · split at hp <;> cases hp <;> simp at hmem <;> exact hmem
  subst hreq
  refine ⟨rfl, rfl, rfl, ?_, ?_⟩
  · refine ⟨"Feature workspace for ".data,
      (" (Parent: " ++ sw.displayName ++ ")").data, ?_⟩
    simp [createWsReq, str_data_append, List.append_assoc]
  · refine ⟨("Feature workspace for " ++ m.newBranchName ++ " (Parent: ").data,
      ")".data, ?_⟩
    simp [createWsReq, str_data_append, List.append_assoc]

/-- Witness for C6 (amended) on the all-success scenario run. -/
theorem c6_create_request_witness :
    ({ displayName := "Feature - feature/login"
       description := "Feature workspace for feature/login (Parent: Dev Workspace)"
       capacityId := "cap-1" } : CreateWorkspaceRequest) = createWsReq mExec swExec ∧
    ({ displayName := "Feature - feature/login"
       description := "Feature workspace for feature/login (Parent: Dev Workspace)"
       capacityId := "cap-1" } : CreateWorkspaceRequest).displayName =
      mExec.newWorkspaceName ∧
    ({ displayName := "Feature - feature/login"
       description := "Feature workspace for feature/login (Parent: Dev Workspace)"
       capacityId := "cap-1" } : CreateWorkspaceRequest).capacityId =
      swExec.capacityId ∧
    mExec.newBranchName.data <:+:
      ({ displayName := "Feature - feature/login"
         description := "Feature workspace for feature/login (Parent: Dev Workspace)"
         capacityId := "cap-1" } : CreateWorkspaceRequest).description.data ∧
    swExec.displayName.data <:+:
      ({ displayName := "Feature - feature/login"
         description := "Feature workspace for feature/login (Parent: Dev Workspace)"
         capacityId := "cap-1" } : CreateWorkspaceRequest).description.data :=
  c6_create_request mExec happyEnv swExec srcLink rfl rfl happyRun
    (by decide)
    { displayName := "Feature - feature/login"
      description := "Feature workspace for feature/login (Parent: Dev Workspace)"
      capacityId := "cap-1" }
    (by decide)

/-! ## The selected-workspace invariant (claim C10) -/

/-- The invariant: once a git link is awaited a workspace is selected,
and once branch entry begins the selected workspace also carries its git
details. -/
def Inv (m : Model) : Prop :=
  (m.state = .stateLoadingGit → m.selectedDevWorkspace.isSome = true) ∧
  ((m.state = .stateEnterBranch ∨ m.state = .stateEnterWorkspace ∨
      m.state = .stateExecuting) →
    (m.selectedDevWorkspace.bind Workspace.gitProviderDetails).isSome = true)

lemma inv_initial : Inv initialModel := by
  constructor <;> intro h <;> simp [initialModel] at h

lemma inv_stateUpdate (m : Model) (msg : Msg) (hI : Inv m) :
    Inv (stateUpdate m msg).1 := by
  obtain ⟨hI1, hI2⟩ := hI
  unfold stateUpdate
  split
  · -- stateSelectWorkspace
    unfold selectUpdate
    split
    · -- key enter
      split
      · -- a workspace is highlighted
        constructor <;> intro h
        · rfl
        · rcases h with h | h | h <;> cases h
      · exact ⟨hI1, hI2⟩
    · exact ⟨hI1, hI2⟩
    · exact ⟨hI1, hI2⟩
    · exact ⟨hI1, hI2⟩
  · -- stateEnterBranch
    rename_i hs
    unfold branchUpdate
    split
    · -- key enter
      dsimp only
      split
      · -- non-empty branch name
        constructor <;> intro h
        · cases h
        · exact hI2 (Or.inl hs)
      · exact ⟨hI1, hI2⟩
    · exact ⟨hI1, hI2⟩
    · exact ⟨hI1, hI2⟩
  · -- stateEnterWorkspace
    rename_i hs
    unfold wsUpdate
    split
    · dsimp only
      split
      · constructor <;> intro h
        · cases h
        · exact hI2 (Or.inr (Or.inl hs))
      · exact ⟨hI1, hI2⟩
    · exact ⟨hI1, hI2⟩
    · exact ⟨hI1, hI2⟩
  · exact ⟨hI1, hI2⟩

lemma inv_update {m : Model} {msg : Msg} {p : Model × Cmd}
    (hI : Inv m) (hA : admissible m msg = true) (hU : update m msg = some p) :
    Inv p.1 := by
  obtain ⟨hI1, hI2⟩ := hI
  cases msg with
  | key k =>
    cases k with
    | ctrlC =>
      simp only [update] at hU
      cases hU
      exact ⟨hI1, hI2⟩
    | enter =>
      simp only [update] at hU; cases hU
      exact inv_stateUpdate m _ ⟨hI1, hI2⟩
    | up =>
      simp only [update] at hU; cases hU
      exact inv_stateUpdate m _ ⟨hI1, hI2⟩
    | down =>
      simp only [update] at hU; cases hU
      exact inv_stateUpdate m _ ⟨hI1, hI2⟩
    | backspace =>
      simp only [update] at hU; cases hU
      exact inv_stateUpdate m _ ⟨hI1, hI2⟩
    | char c =>
      simp only [update] at hU; cases hU
      exact inv_stateUpdate m _ ⟨hI1, hI2⟩
    | other =>
      simp only [update] at hU; cases hU
      exact inv_stateUpdate m _ ⟨hI1, hI2⟩
  | windowSize =>
    simp only [update] at hU; cases hU
    exact inv_stateUpdate m _ ⟨hI1, hI2⟩
  | errMsg e =>
    simp only [update] at hU; cases hU
    constructor <;> intro h
    · cases h
    · rcases h with h | h | h <;> cases h
  | clientsReady =>
    simp only [update] at hU; cases hU
    constructor <;> intro h
    · cases h
    · rcases h with h | h | h <;> cases h
  | workspacesMsg ws =>
    simp only [update] at hU; cases hU
    constructor <;> intro h
    · cases h
    · rcases h with h | h | h <;> cases h
  | gitConnectionMsg d =>
    cases d with
    | none =>
      simp only [update] at hU; cases hU
      constructor <;> intro h
      · cases h
      · rcases h with h | h | h <;> cases h
    | some g =>
      by_cases hg : g.gitProviderType = ""
      · simp only [update, if_pos hg] at hU; cases hU
        constructor <;> intro h
        · cases h
        · rcases h with h | h | h <;> cases h
      · cases hsel : m.selectedDevWorkspace with
        | none => simp [update, hg, hsel] at hU
        | some w =>
          simp only [update, if_neg hg, hsel] at hU; cases hU
          constructor <;> intro h
          · cases h
          · simp
  | executionStep info =>
    simp only [update] at hU; cases hU
    exact ⟨hI1, hI2⟩
  | executionDone s =>
    simp only [update] at hU; cases hU
    constructor <;> intro h
    · cases h
    · rcases h with h | h | h <;> cases h

lemma reachable_inv {m : Model} (h : Reachable m) : Inv m := by
  induction h with
  | init => exact inv_initial
  | step hR hA hU ih => exact inv_update ih hA hU

lemma executeFlowCmd_isSome (m : Model) (env : Env)
    (h : (m.selectedDevWorkspace.bind Workspace.gitProviderDetails).isSome = true) :
    (executeFlowCmd m env).isSome = true := by
  cases hsel : m.selectedDevWorkspace with
  | none => rw [hsel] at h; simp at h
  | some sw =>
    cases hg : sw.gitProviderDetails with
    | none => rw [hsel] at h; simp [hg] at h
    | some g =>
      simp only [executeFlowCmd, hsel, hg]
      split
      · rfl
      · split
        · rfl
        · split
          · rfl
          · split
            · rfl
            · split <;> rfl

lemma update_isSome (m : Model) (msg : Msg) (hI : Inv m)
    (hA : admissible m msg = true) : (update m msg).isSome = true := by
  cases msg with
  | key k => cases k <;> simp [update]
  | gitConnectionMsg d =>
    have hs : m.state = .stateLoadingGit := by
      simpa [admissible] using hA
    cases d with
    | none => simp [update]
    | some g =>
      by_cases hg : g.gitProviderType = ""
      · simp [update, hg]
      · have h1 := hI.1 hs
        cases hsel : m.selectedDevWorkspace with
        | none => rw [hsel] at h1; simp at h1
        | some w => simp [update, hg, hsel]
  | _ => simp [update]

lemma reachable_runTrace : ∀ (msgs : List Msg) (m m' : Model),
    Reachable m → runTrace m msgs = some m' → Reachable m' := by
  intro msgs
  induction msgs with
  | nil =>
    intro m m' h h0
    simp only [runTrace] at h0
    cases h0
    exact h
  | cons msg rest ih =>
    intro m m' h h0
    simp only [runTrace] at h0
    split at h0
    · rename_i hA
      split at h0
      · rename_i p hU
        exact ih p.1 m' (Reachable.step h hA hU) h0
      · cases h0
    · cases h0

lemma reach_mExec : Reachable mExec :=
  reachable_runTrace scenarioMsgs initialModel mExec Reachable.init (by decide)

/-- Claim C10: in every reachable state whose phase is `LoadingGitLink`,
`EnterBranchName`, `EnterWorkspaceName` or `Executing`, a source
workspace is selected (the pointer is non-nil); consequently the
dereference that stores the git link and the reads of the git link,
display name and capacity in the execution sequence cannot fault: the
update step and the execution sequence are defined in every admissible
situation. -/
theorem c10_selected_workspace_nonnil (m : Model) (hR : Reachable m) :
    ((m.state = .stateLoadingGit ∨ m.state = .stateEnterBranch ∨
        m.state = .stateEnterWorkspace ∨ m.state = .stateExecuting) →
      m.selectedDevWorkspace.isSome = true) ∧
    (m.state = .stateExecuting →
      ∀ env, (executeFlowCmd m env).isSome = true) ∧
    (∀ msg, admissible m msg = true → (update m msg).isSome = true) := by
  have hI := reachable_inv hR
  refine ⟨?_, ?_, ?_⟩
  · intro h
    rcases h with h | h
    · exact hI.1 h
    · have h2 := hI.2 h
      cases hsel : m.selectedDevWorkspace with
      | none => rw [hsel] at h2; simp at h2
      | some w => rfl
  · intro h env
    exact executeFlowCmd_isSome m env (hI.2 (Or.inr (Or.inr h)))
  · intro msg hA
    exact update_isSome m msg hI hA

/-- Witness for C10 at the reachable `Executing` state of the scenario. -/
theorem c10_selected_workspace_nonnil_witness :
    mExec.selectedDevWorkspace.isSome = true ∧
    (executeFlowCmd mExec happyEnv).isSome = true :=
  ⟨(c10_selected_workspace_nonnil mExec reach_mExec).1
      (Or.inr (Or.inr (Or.inr rfl))),
   (c10_selected_workspace_nonnil mExec reach_mExec).2.1 rfl happyEnv⟩

end Fabricant
